import Mathlib

/-!
Shallow embedding of the artwork-browser component in `src/src/App.tsx`
(PaginationReact).  The component's React state is modelled as a record
`AppState`; each handler becomes a pure function from state (plus the
external fetch oracle) to a new state together with the list of toast
notifications it emits.  The remote paginated endpoint is modelled by the
`Fetcher` type; `apiFetch` instantiates it with an in-memory dataset for
the happy path, and arbitrary fetchers model network failures.
-/

set_option maxRecDepth 8000

/-- One art-collection record, with the field projection requested by
`fetchData` in `App.tsx`. -/
structure Artwork where
  id : Int
  title : String
  place_of_origin : String
  artist_display : String
  inscriptions : String
  date_start : Int
  date_end : Int
deriving DecidableEq, Repr

/-- The `pagination` object of the remote API's JSON body. -/
structure PaginationMeta where
  total : Nat
  limit : Nat
  offset : Nat
  total_pages : Nat
  current_page : Nat
deriving DecidableEq, Repr

/-- The JSON body returned by a successful page fetch: a `data` array of
records plus pagination metadata. -/
structure ApiResponse where
  data : List Artwork
  pagination : PaginationMeta
deriving DecidableEq, Repr

/-- The external fetch oracle: `fetchData page rows` either returns the
parsed JSON body or fails (the `throw new Error` path on a non-ok
response, or a network error). -/
def Fetcher : Type := Nat → Nat → Except Unit ApiResponse

/-- Toast severities used by the component. -/
inductive Severity where
  | success
  | warn
  | error
deriving DecidableEq, Repr

/-- A toast notification as shown via `toastRef.current?.show`. -/
structure Toast where
  severity : Severity
  summary : String
  detail : String
deriving DecidableEq, Repr

/-- The React state of the `App` component: displayed page of records,
pagination metadata, the cross-page selection set, the derived
"all selected" flag, and the dropdown UI state. -/
structure AppState where
  artworks : List Artwork
  loading : Bool
  currentPage : Nat
  pageSize : Nat
  totalRecords : Nat
  totalPages : Nat
  selectedIds : Finset Int
  isAllSelected : Bool
  showDropdown : Bool
  inputValue : String
deriving DecidableEq

/-- The initial state produced by the `useState` initialisers. -/
def initialState : AppState :=
  { artworks := []
    loading := false
    currentPage := 0
    pageSize := 10
    totalRecords := 0
    totalPages := 0
    selectedIds := ∅
    isAllSelected := false
    showDropdown := false
    inputValue := "" }

/-- Embeds `updateSelectAllStatus`: the flag is `pageIds.length > 0 &&
pageIds.every(id => selectedIds.has(id))`.  The selection set read from
the closure is passed explicitly. -/
def updateSelectAllStatus (pageData : List Artwork) (selectedIds : Finset Int) : Bool :=
  let pageIds := pageData.map (·.id)
  decide (0 < pageIds.length) && pageIds.all (fun i => decide (i ∈ selectedIds))

/-- Embeds `loadPage`: fetch the requested page; on success replace the displayed
records and pagination metadata and recompute the flag against the (old)
selection set; on failure emit an error toast and change nothing else.
`setLoading(false)` runs in both cases. -/
def loadPage (fetch : Fetcher) (s : AppState) (page rows : Nat) : AppState × List Toast :=
  match fetch page rows with
  | .ok d =>
      ({ s with
          artworks := d.data
          currentPage := page
          pageSize := rows
          totalRecords := d.pagination.total
          totalPages := d.pagination.total_pages
          isAllSelected := updateSelectAllStatus d.data s.selectedIds
          loading := false }, [])
  | .error _ =>
      ({ s with loading := false },
       [{ severity := .error, summary := "Error", detail := "Failed to load data" }])

/-- Embeds `handleCheckbox`: add or remove one identifier and recompute the flag
with `pageIds.every(pid => updatedIds.has(pid))` (no nonempty guard). -/
def handleCheckbox (s : AppState) (rid : Int) (checked : Bool) : AppState :=
  let updatedIds := if checked then insert rid s.selectedIds else s.selectedIds.erase rid
  let pageIds := s.artworks.map (·.id)
  { s with
      selectedIds := updatedIds
      isAllSelected := pageIds.all (fun pid => decide (pid ∈ updatedIds)) }

/-- Embeds `handleSelectAll`: add (checked) or delete (unchecked) every identifier
of the current page, then set the flag directly to `checked`. -/
def handleSelectAll (s : AppState) (checked : Bool) : AppState :=
  let pageIds := s.artworks.map (·.id)
  let updatedIds :=
    pageIds.foldl (fun t i => if checked then insert i t else t.erase i) s.selectedIds
  { s with selectedIds := updatedIds, isAllSelected := checked }

/-- JS `parseInt` on the text-input value, restricted to its decimal
behaviour: skip leading spaces, read an optional sign and then the longest
digit prefix; `NaN` (no digits) becomes `none`. -/
def parseIntJS (str : String) : Option Int :=
  let cs := str.toList.dropWhile (fun c => c = ' ')
  let signAndRest : Int × List Char :=
    match cs with
    | '-' :: t => (-1, t)
    | '+' :: t => (1, t)
    | t => (1, t)
  let ds := signAndRest.2.takeWhile (fun c => c.isDigit)
  if ds.isEmpty then none
  else some (signAndRest.1 * (ds.foldl (fun a c => a * 10 + ((c.toNat : Int) - 48)) 0))

/-- The fixed batch size of the bulk-selection accumulator. -/
def itemsPerPage : Nat := 50

/-- Outcome of the bulk-selection scan loop: the new value of the local
`updatedIds` set, the final `itemsSelected` counter, and the list of
`(page index, itemsToTake)` pairs describing each fetch performed. -/
structure ScanResult where
  selected : Finset Int
  count : Nat
  pages : List (Nat × Nat)
deriving DecidableEq

/-- The `while (itemsSelected < num)` loop of `selectRows`, recursing on
`remaining = num - itemsSelected`: fetch the page, take
`min(remaining, page length)` identifiers from its front, stop early when
a page has fewer than `itemsPerPage` records, and propagate a fetch
failure. -/
def selectRowsLoop (fetch : Fetcher) : Nat → Nat → Finset Int → Except Unit ScanResult
  | 0, _, acc => .ok { selected := acc, count := 0, pages := [] }
  | (r + 1), page, acc =>
      match fetch page itemsPerPage with
      | .error e => .error e
      | .ok d =>
          let itemsToTake := min (r + 1) d.data.length
          let acc2 := ((d.data.take itemsToTake).map (·.id)).foldl (fun t i => insert i t) acc
          if d.data.length < itemsPerPage then
            .ok { selected := acc2, count := itemsToTake, pages := [(page, itemsToTake)] }
          else
            match selectRowsLoop fetch (r + 1 - itemsToTake) (page + 1) acc2 with
            | .error e => .error e
            | .ok res =>
                .ok { selected := res.selected
                      count := itemsToTake + res.count
                      pages := (page, itemsToTake) :: res.pages }
termination_by r _ _ => r
decreasing_by
  simp only [itemsPerPage] at *
  omega

/-- Embeds `selectRows`: validate the parsed input (`!num || isNaN(num) || num <= 0`
then `num > totalRecords`), run the scan loop from the current selection
set, and on success commit the merged set and recompute the flag against
the displayed page; a failure mid-scan discards the local set.  The
dropdown is closed and the input cleared on every path that passes
validation. -/
def selectRows (fetch : Fetcher) (s : AppState) : AppState × List Toast :=
  match parseIntJS s.inputValue with
  | none =>
      (s, [{ severity := .warn, summary := "Invalid input", detail := "Enter a valid number" }])
  | some num =>
      if num ≤ 0 then
        (s, [{ severity := .warn, summary := "Invalid input", detail := "Enter a valid number" }])
      else if (s.totalRecords : Int) < num then
        (s, [{ severity := .warn, summary := "Too many rows",
               detail := "Only " ++ toString s.totalRecords ++ " available" }])
      else
        match selectRowsLoop fetch num.toNat 0 s.selectedIds with
        | .ok res =>
            ({ s with
                selectedIds := res.selected
                isAllSelected := (s.artworks.map (·.id)).all (fun i => decide (i ∈ res.selected))
                loading := false
                showDropdown := false
                inputValue := "" },
             [{ severity := .success, summary := "Success",
                detail := "Selected " ++ toString res.count ++ " rows" }])
        | .error _ =>
            ({ s with loading := false, showDropdown := false, inputValue := "" },
             [{ severity := .error, summary := "Error", detail := "Selection failed" }])

/-- Embeds `submitSelection`: warn and do nothing when the selection set is empty;
otherwise echo the identifiers in a success toast, close the dropdown and
clear the input. -/
def submitSelection (s : AppState) : AppState × List Toast :=
  if s.selectedIds.card = 0 then
    (s, [{ severity := .warn, summary := "No selection", detail := "Select rows first" }])
  else
    ({ s with showDropdown := false, inputValue := "" },
     [{ severity := .success, summary := "Submitted",
        detail := "Selected IDs: " ++
          String.intercalate ", "
            (((s.selectedIds.sort (· ≤ ·)).map toString)) }])

/-- Model of the remote paginated endpoint over an in-memory dataset: page
`page` at size `rows` is the slice `dataset[page*rows ..< page*rows+rows]`,
with the pagination metadata the API documents (total count, limit,
offset, total pages, 1-indexed current page). -/
def apiFetch (dataset : List Artwork) : Fetcher := fun page rows =>
  .ok { data := (dataset.drop (page * rows)).take rows
        pagination :=
          { total := dataset.length
            limit := rows
            offset := page * rows
            total_pages := (dataset.length + rows - 1) / rows
            current_page := page + 1 } }

/-- States of the component reachable from the initial render through its
event handlers: page loads (with any fetch outcome), row checkbox clicks
(only on a row of the displayed page), header select-all clicks, bulk
selection, submission, and edits of the dropdown UI state. -/
inductive Reachable : AppState → Prop where
  | init : Reachable initialState
  | load (s : AppState) (f : Fetcher) (page rows : Nat) :
      Reachable s → Reachable (loadPage f s page rows).1
  | checkbox (s : AppState) (rid : Int) (checked : Bool) :
      Reachable s → rid ∈ s.artworks.map (·.id) → Reachable (handleCheckbox s rid checked)
  | selectAll (s : AppState) (checked : Bool) :
      Reachable s → Reachable (handleSelectAll s checked)
  | bulk (s : AppState) (f : Fetcher) :
      Reachable s → Reachable (selectRows f s).1
  | submit (s : AppState) :
      Reachable s → Reachable (submitSelection s).1
  | input (s : AppState) (v : String) :
      Reachable s → Reachable { s with inputValue := v }
  | dropdown (s : AppState) :
      Reachable s → Reachable { s with showDropdown := !s.showDropdown }

/-- Sample record with a given identifier, used for concrete instances. -/
def mkArt (n : Int) : Artwork :=
  { id := n, title := "", place_of_origin := "", artist_display := ""
    inscriptions := "", date_start := 0, date_end := 0 }

/-- Dataset of `n` sample records with identifiers `1, …, n`. -/
def mkArts (n : Nat) : List Artwork :=
  (List.range n).map (fun k => mkArt ((k : Int) + 1))

/-- A concrete state with three records displayed, record 2 selected. -/
def demoState : AppState :=
  { initialState with
      artworks := mkArts 3
      totalRecords := 3
      totalPages := 1
      selectedIds := {2} }

/-- State poised to bulk-select 2 of 3 records with nothing selected. -/
def state2of3 : AppState :=
  { initialState with inputValue := "2", totalRecords := 3 }

/-- A 128-record dataset, for the worked bulk-selection example. -/
def ds128 : List Artwork := mkArts 128

/-- A 60-record dataset, for the mid-scan failure scenario. -/
def ds60 : List Artwork := mkArts 60

/-- A fetcher that serves page 0 of `ds60` and fails on every later page:
the mid-scan network failure scenario. -/
def fetchFailAfterFirst : Fetcher := fun page rows =>
  if page = 0 then apiFetch ds60 page rows else .error ()

/-- State poised to bulk-select 75 of 128 records with nothing selected. -/
def state75 : AppState :=
  { initialState with totalRecords := 128, inputValue := "75" }

/-- State poised to bulk-select 51 of 60 records with nothing selected. -/
def state51 : AppState :=
  { initialState with totalRecords := 60, inputValue := "51" }

/-- Closed form of the `(page index, itemsToTake)` trace of the scan loop
when at least `remaining` records are available from `page` onward: full
batches of 50 and a final partial batch. -/
def pagesSpec : Nat → Nat → List (Nat × Nat)
  | 0, _ => []
  | (r + 1), page =>
      if r + 1 ≤ itemsPerPage then [(page, r + 1)]
      else (page, itemsPerPage) :: pagesSpec (r + 1 - itemsPerPage) (page + 1)
termination_by r _ => r
decreasing_by
  simp only [itemsPerPage] at *
  omega

/-- Folding `insert` over a list of identifiers unions the list into the
accumulator (the semantics of the repeated `updatedIds.add` calls). -/
theorem foldl_insert_finset (l : List Int) (s : Finset Int) :
    l.foldl (fun t i => insert i t) s = s ∪ l.toFinset := by
  induction l generalizing s with
  | nil => simp
  | cons hd tl ih =>
      simp only [List.foldl_cons, ih, List.toFinset_cons]
      ext a
      simp only [Finset.mem_union, Finset.mem_insert]
      tauto

/-- Folding `erase` over a list of identifiers subtracts the list from the
accumulator (the semantics of the repeated `updatedIds.delete` calls). -/
theorem foldl_erase_finset (l : List Int) (s : Finset Int) :
    l.foldl (fun t i => t.erase i) s = s \ l.toFinset := by
  induction l generalizing s with
  | nil => simp
  | cons hd tl ih =>
      rw [List.foldl_cons, ih, List.toFinset_cons]
      ext a
      simp only [Finset.mem_sdiff, Finset.mem_insert, Finset.mem_erase]
      tauto

/-- C6: for every selection set and every record identifier on the current
page, toggling that row's checkbox twice — first with `checked` set to the
negation of its current membership, then with the negation of the
resulting membership — returns the selection set to exactly its prior
value. -/
theorem handleCheckbox_toggle_roundtrip (s : AppState) (rid : Int)
    (hmem : rid ∈ s.artworks.map (·.id)) :
    (handleCheckbox (handleCheckbox s rid (decide (rid ∉ s.selectedIds))) rid
      (decide (rid ∉ (handleCheckbox s rid (decide (rid ∉ s.selectedIds))).selectedIds))).selectedIds
      = s.selectedIds := by
  by_cases h : rid ∈ s.selectedIds
  · simp [handleCheckbox, h, Finset.insert_erase]
  · simp [handleCheckbox, h, Finset.erase_insert]

/-- Witness for C6 at a concrete state: three records on the page,
record 2 already selected, toggling row 2 twice restores the set. -/
theorem handleCheckbox_toggle_roundtrip_witness :
    ((2 : Int) ∈ (demoState.artworks.map (·.id))) ∧
    (handleCheckbox (handleCheckbox demoState 2 (decide ((2 : Int) ∉ demoState.selectedIds))) 2
      (decide ((2 : Int) ∉ (handleCheckbox demoState 2
        (decide ((2 : Int) ∉ demoState.selectedIds))).selectedIds))).selectedIds
      = demoState.selectedIds :=
  ⟨by decide, handleCheckbox_toggle_roundtrip demoState 2 (by decide)⟩

/-- C7: the select-all toggle adds (checked) or removes (unchecked) exactly
the identifiers of the records on the current page — so membership of
every identifier not on the page is unchanged — and sets the "all
selected" flag directly to the checked value; no other field changes. -/
theorem handleSelectAll_frame (s : AppState) (checked : Bool) :
    (handleSelectAll s checked).selectedIds =
      (if checked then s.selectedIds ∪ (s.artworks.map (·.id)).toFinset
       else s.selectedIds \ (s.artworks.map (·.id)).toFinset) ∧
    (handleSelectAll s checked).isAllSelected = checked ∧
    (handleSelectAll s checked).artworks = s.artworks ∧
    (handleSelectAll s checked).currentPage = s.currentPage ∧
    (handleSelectAll s checked).totalRecords = s.totalRecords := by
  refine ⟨?_, by simp [handleSelectAll], by simp [handleSelectAll],
    by simp [handleSelectAll], by simp [handleSelectAll]⟩
  cases checked
  · simpa [handleSelectAll] using foldl_erase_finset (s.artworks.map (·.id)) s.selectedIds
  · simpa [handleSelectAll] using foldl_insert_finset (s.artworks.map (·.id)) s.selectedIds

/-- C9: submitting with an empty selection set emits only the warning toast
and returns the state entirely unchanged. -/
theorem submitSelection_empty (s : AppState) (h : s.selectedIds.card = 0) :
    submitSelection s =
      (s, [{ severity := .warn, summary := "No selection", detail := "Select rows first" }]) := by
  simp [submitSelection, h]

/-- Witness for C9 at the initial state, whose selection set is empty. -/
theorem submitSelection_empty_witness :
    initialState.selectedIds.card = 0 ∧
    submitSelection initialState =
      (initialState,
       [{ severity := .warn, summary := "No selection", detail := "Select rows first" }]) :=
  ⟨by decide, submitSelection_empty initialState (by decide)⟩

/-- C10: page navigation never touches the selection set, whatever the
fetch outcome; from an idle state it also leaves the loading flag, the
dropdown visibility and the input value as they were, so only the
displayed records, the pagination metadata and the derived flag change. -/
theorem loadPage_preserves_selection (f : Fetcher) (s : AppState) (page rows : Nat)
    (h : s.loading = false) :
    (loadPage f s page rows).1.selectedIds = s.selectedIds ∧
    (loadPage f s page rows).1.loading = s.loading ∧
    (loadPage f s page rows).1.showDropdown = s.showDropdown ∧
    (loadPage f s page rows).1.inputValue = s.inputValue := by
  cases hf : f page rows <;> simp [loadPage, hf, h]

/-- Witness for C10: loading page 0 of the demo dataset from the initial
state keeps the (empty) selection set and the idle UI fields. -/
theorem loadPage_preserves_selection_witness :
    initialState.loading = false ∧
    ((loadPage (apiFetch ds128) initialState 0 10).1.selectedIds = initialState.selectedIds ∧
     (loadPage (apiFetch ds128) initialState 0 10).1.loading = initialState.loading ∧
     (loadPage (apiFetch ds128) initialState 0 10).1.showDropdown = initialState.showDropdown ∧
     (loadPage (apiFetch ds128) initialState 0 10).1.inputValue = initialState.inputValue) :=
  ⟨by decide, loadPage_preserves_selection (apiFetch ds128) initialState 0 10 (by decide)⟩

/-- C4: when the parsed input exceeds the total record count, `selectRows`
emits only the "Too many rows" warning and returns the state unchanged,
for every fetcher (so no page is fetched). -/
theorem selectRows_too_many (f : Fetcher) (s : AppState) (n : Int)
    (hp : parseIntJS s.inputValue = some n)
    (hgt : (s.totalRecords : Int) < n) :
    selectRows f s =
      (s, [{ severity := .warn, summary := "Too many rows",
             detail := "Only " ++ toString s.totalRecords ++ " available" }]) := by
  have h0 : ¬ n ≤ 0 := by
    have : (0 : Int) ≤ (s.totalRecords : Int) := Int.ofNat_nonneg s.totalRecords
    omega
  simp [selectRows, hp, h0, hgt]

/-- Witness for C4: asking for 5 rows when only 3 exist warns and changes
nothing. -/
theorem selectRows_too_many_witness :
    parseIntJS ({ initialState with inputValue := "5", totalRecords := 3 } : AppState).inputValue
      = some 5 ∧
    ((3 : Nat) : Int) < 5 ∧
    selectRows (apiFetch ds128) { initialState with inputValue := "5", totalRecords := 3 } =
      ({ initialState with inputValue := "5", totalRecords := 3 },
       [{ severity := .warn, summary := "Too many rows",
          detail := "Only " ++ toString (3 : Nat) ++ " available" }]) :=
  ⟨by decide, by decide,
    selectRows_too_many (apiFetch ds128)
      { initialState with inputValue := "5", totalRecords := 3 } 5 (by decide) (by decide)⟩

/-- C5: when the input parses to `NaN` or to a non-positive number,
`selectRows` emits only the "Invalid input" warning and returns the state
unchanged, for every fetcher (so no page is fetched). -/
theorem selectRows_invalid_input (f : Fetcher) (s : AppState)
    (h : parseIntJS s.inputValue = none ∨
         ∃ n : Int, parseIntJS s.inputValue = some n ∧ n ≤ 0) :
    selectRows f s =
      (s, [{ severity := .warn, summary := "Invalid input",
             detail := "Enter a valid number" }]) := by
  rcases h with h | ⟨n, hp, hn⟩
  · simp [selectRows, h]
  · simp [selectRows, hp, hn]

/-- Witness for C5: the non-numeric input string parses to `NaN`, and
`selectRows` warns without mutating anything. -/
theorem selectRows_invalid_input_witness :
    (parseIntJS ({ initialState with inputValue := "abc" } : AppState).inputValue = none ∨
     ∃ n : Int,
       parseIntJS ({ initialState with inputValue := "abc" } : AppState).inputValue = some n ∧
       n ≤ 0) ∧
    selectRows (apiFetch ds128) { initialState with inputValue := "abc" } =
      ({ initialState with inputValue := "abc" },
       [{ severity := .warn, summary := "Invalid input",
          detail := "Enter a valid number" }]) :=
  ⟨Or.inl (by decide),
    selectRows_invalid_input (apiFetch ds128) { initialState with inputValue := "abc" }
      (Or.inl (by decide))⟩

/-- Unfolding lemma: the scan loop with nothing remaining fetches nothing. -/
theorem selectRowsLoop_zero (f : Fetcher) (page : Nat) (acc : Finset Int) :
    selectRowsLoop f 0 page acc = .ok { selected := acc, count := 0, pages := [] } := by
  rw [selectRowsLoop]

/-- The page trace of the scan consists of consecutive page indices
starting at the given page, one per batch of 50 plus a final partial
batch. -/
theorem pagesSpec_map_fst (r : Nat) :
    ∀ p : Nat, 0 < r →
      (pagesSpec r p).map Prod.fst = List.range' p ((r - 1) / itemsPerPage + 1) := by
  induction r using Nat.strong_induction_on with
  | _ r ih =>
    intro p hpos
    obtain ⟨r', rfl⟩ : ∃ q, r = q + 1 := ⟨r - 1, by omega⟩
    rw [pagesSpec]
    by_cases h : r' + 1 ≤ itemsPerPage
    · rw [if_pos h]
      have hz : r' / itemsPerPage = 0 := by
        simp only [itemsPerPage] at *
        omega
      simp [hz, List.range']
    · rw [if_neg h]
      have hrec := ih (r' + 1 - itemsPerPage)
        (by simp only [itemsPerPage] at *; omega) (p + 1)
        (by simp only [itemsPerPage] at *; omega)
      simp only [List.map_cons, hrec]
      have hd : (r' + 1 - 1) / itemsPerPage + 1 =
          ((r' + 1 - itemsPerPage - 1) / itemsPerPage + 1) + 1 := by
        simp only [itemsPerPage] at *
        omega
      rw [hd]
      simp [List.range']

/-- Core correctness of the bulk-selection scan over the modelled endpoint:
when at least `r` records remain from `page` onward, the loop succeeds,
takes exactly the next `r` identifiers in page order, counts `r` items
selected, and fetches the pages described by `pagesSpec`. -/
theorem selectRowsLoop_apiFetch (L : List Artwork) (r : Nat) :
    ∀ (page : Nat) (acc : Finset Int), 0 < r →
      page * itemsPerPage + r ≤ L.length →
      selectRowsLoop (apiFetch L) r page acc =
        .ok { selected :=
                acc ∪ (((L.drop (page * itemsPerPage)).take r).map (·.id)).toFinset
              count := r
              pages := pagesSpec r page } := by
  induction r using Nat.strong_induction_on with
  | _ r ih =>
    intro page acc hpos hle
    obtain ⟨r', rfl⟩ : ∃ q, r = q + 1 := ⟨r - 1, by omega⟩
    have hdrop : (L.drop (page * itemsPerPage)).length = L.length - page * itemsPerPage :=
      List.length_drop _ _
    rw [selectRowsLoop]
    simp only [apiFetch, itemsPerPage] at ih hle ⊢
    rw [List.length_take, List.length_drop]
    by_cases hshort : L.length - page * 50 < 50
    · rw [min_eq_right (Nat.le_of_lt hshort)]
      rw [if_pos hshort]
      rw [min_eq_left (by omega : r' + 1 ≤ L.length - page * 50)]
      rw [List.take_take, min_eq_left (by omega : r' + 1 ≤ 50)]
      rw [foldl_insert_finset]
      rw [pagesSpec]
      simp only [itemsPerPage]
      rw [if_pos (by omega : r' + 1 ≤ 50)]
    · push_neg at hshort
      rw [min_eq_left hshort]
      rw [if_neg (lt_irrefl 50)]
      by_cases hr : r' + 1 ≤ 50
      · rw [min_eq_left hr]
        rw [Nat.sub_self]
        rw [selectRowsLoop_zero]
        rw [List.take_take, min_eq_left hr]
        rw [foldl_insert_finset]
        rw [pagesSpec]
        simp only [itemsPerPage]
        rw [if_pos hr]
      · push_neg at hr
        rw [min_eq_right (by omega : 50 ≤ r' + 1)]
        rw [List.take_take, min_self]
        rw [foldl_insert_finset]
        have hle2 : (page + 1) * 50 + (r' + 1 - 50) ≤ L.length := by omega
        simp only [ih (r' + 1 - 50) (by omega) (page + 1)
          (acc ∪ (List.map (fun x => x.id) (List.take 50 (List.drop (page * 50) L))).toFinset)
          (by omega) hle2]
        simp only [Except.ok.injEq, ScanResult.mk.injEq]
        refine ⟨?_, by omega, ?_⟩
        · have h1 : List.drop ((page + 1) * 50) L
              = List.drop 50 (List.drop (page * 50) L) := by
            rw [List.drop_drop, show (page + 1) * 50 = page * 50 + 50 from by ring]
          have hsplit : List.take (r' + 1) (List.drop (page * 50) L)
              = List.take 50 (List.drop (page * 50) L)
                ++ List.take (r' + 1 - 50) (List.drop ((page + 1) * 50) L) := by
            rw [h1, ← List.take_add, show 50 + (r' + 1 - 50) = r' + 1 from by omega]
          rw [hsplit, List.map_append, List.toFinset_append, Finset.union_assoc]
        · conv_rhs => rw [pagesSpec]
          simp only [itemsPerPage]
          rw [if_neg (by omega : ¬ r' + 1 ≤ 50)]

/-- C1: for every positive N at most the record count and every prior
selection set, the bulk-selection scan over pages of size 50 succeeds,
visiting consecutive pages from page 0 and taking `min(remaining, page
length)` identifiers from the front of each (the `pagesSpec` trace); the
identifiers taken are exactly the first N identifiers of the dataset in
page order, and the committed selection set has size at least N. -/
theorem selectRows_bulk_first_n (L : List Artwork) (s : AppState) (n : Nat)
    (hp : parseIntJS s.inputValue = some (n : Int))
    (hpos : 0 < n) (hle : n ≤ L.length)
    (htot : s.totalRecords = L.length)
    (hnodup : (L.map (·.id)).Nodup) :
    selectRowsLoop (apiFetch L) n 0 s.selectedIds =
      .ok { selected := s.selectedIds ∪ ((L.take n).map (·.id)).toFinset
            count := n
            pages := pagesSpec n 0 } ∧
    (pagesSpec n 0).map Prod.fst = List.range ((n - 1) / itemsPerPage + 1) ∧
    (selectRows (apiFetch L) s).1.selectedIds =
      s.selectedIds ∪ ((L.take n).map (·.id)).toFinset ∧
    n ≤ (selectRows (apiFetch L) s).1.selectedIds.card := by
  have hloop := selectRowsLoop_apiFetch L n 0 s.selectedIds hpos (by simpa using hle)
  rw [Nat.zero_mul, List.drop_zero] at hloop
  have h0 : ¬ ((n : Nat) : Int) ≤ 0 := by omega
  have h1 : ¬ ((s.totalRecords : Int) < ((n : Nat) : Int)) := by rw [htot]; omega
  have hsel : (selectRows (apiFetch L) s).1.selectedIds =
      s.selectedIds ∪ ((L.take n).map (·.id)).toFinset := by
    simp only [selectRows, hp, if_neg h0, if_neg h1, Int.toNat_natCast, hloop]
  refine ⟨hloop, ?_, hsel, ?_⟩
  · rw [pagesSpec_map_fst n 0 hpos, List.range_eq_range']
  · rw [hsel]
    have hnod2 : ((L.take n).map (·.id)).Nodup :=
      hnodup.sublist ((List.take_sublist n L).map (·.id))
    have hcard : ((L.take n).map (·.id)).toFinset.card = n := by
      rw [List.toFinset_card_of_nodup hnod2, List.length_map, List.length_take,
        min_eq_left hle]
    calc n = ((L.take n).map (·.id)).toFinset.card := hcard.symm
      _ ≤ _ := Finset.card_le_card Finset.subset_union_right

/-- Witness for C1: bulk-selecting 2 of 3 records from an empty selection
takes the first two identifiers and yields a selection of size 2. -/
theorem selectRows_bulk_first_n_witness :
    (parseIntJS state2of3.inputValue = some ((2 : Nat) : Int) ∧ 0 < 2 ∧
      2 ≤ (mkArts 3).length ∧ state2of3.totalRecords = (mkArts 3).length ∧
      ((mkArts 3).map (·.id)).Nodup) ∧
    (selectRows (apiFetch (mkArts 3)) state2of3).1.selectedIds =
      state2of3.selectedIds ∪ (((mkArts 3).take 2).map (·.id)).toFinset ∧
    2 ≤ (selectRows (apiFetch (mkArts 3)) state2of3).1.selectedIds.card :=
  ⟨⟨by decide, by decide, by decide, by decide, by decide⟩,
    (selectRows_bulk_first_n (mkArts 3) state2of3 2 (by decide) (by decide) (by decide)
      (by decide) (by decide)).2.2⟩

/-- C8: with a 128-record dataset and an empty prior selection, bulk-select
75 fetches page 0 taking all 50 identifiers and page 1 taking 25, fetches
no further page, and the selection set afterwards has exactly 75
identifiers. -/
theorem selectRows_example_75_of_128 :
    selectRowsLoop (apiFetch ds128) 75 0 ∅ =
      .ok { selected := ((ds128.take 75).map (·.id)).toFinset
            count := 75
            pages := [(0, 50), (1, 25)] } ∧
    (((ds128.take 75).map (·.id)).toFinset).card = 75 ∧
    (selectRows (apiFetch ds128) state75).1.selectedIds.card = 75 := by
  have hlen : ds128.length = 128 := by decide
  have h := selectRowsLoop_apiFetch ds128 75 0 ∅ (by norm_num)
    (by simp [itemsPerPage, hlen])
  rw [Nat.zero_mul, List.drop_zero, Finset.empty_union] at h
  have hpages : pagesSpec 75 0 = [(0, 50), (1, 25)] := by
    rw [show (75 : Nat) = 74 + 1 from rfl, pagesSpec]
    simp only [itemsPerPage]
    rw [if_neg (by norm_num)]
    norm_num
    rw [show (25 : Nat) = 24 + 1 from rfl, pagesSpec]
    simp only [itemsPerPage]
    rw [if_pos (by norm_num)]
  rw [hpages] at h
  refine ⟨h, by decide, ?_⟩
  have hp : parseIntJS state75.inputValue = some 75 := by decide
  have h0 : ¬ ((75 : Int) ≤ 0) := by norm_num
  have h1 : ¬ ((state75.totalRecords : Int) < 75) := by decide
  simp only [selectRows, hp, if_neg h0, if_neg h1]
  rw [show ((75 : Int)).toNat = 75 from rfl, show state75.selectedIds = ∅ from rfl, h]
  decide

/-- Evaluation of the scan on the failing fetcher: page 0 succeeds with a
full batch of 50, so the loop continues to page 1, whose fetch fails; the
whole scan propagates the failure. -/
theorem selectRowsLoop_fail_mid :
    selectRowsLoop fetchFailAfterFirst ((51 : Int)).toNat 0 state51.selectedIds
      = .error () := by
  rw [show ((51 : Int)).toNat = 50 + 1 from rfl,
    show state51.selectedIds = ∅ from rfl, selectRowsLoop]
  have h60 : ds60.length = 60 := by decide
  simp only [fetchFailAfterFirst, if_pos rfl, apiFetch, itemsPerPage,
    List.length_take, List.length_drop]
  norm_num [h60]
  rw [show (1 : Nat) = 0 + 1 from rfl, selectRowsLoop]
  simp [fetchFailAfterFirst, itemsPerPage]

/-- C2 (amended): if a fetch fails partway through the bulk-selection scan,
the operation aborts with an error toast and the selection set is left
unchanged — the identifiers merged before the failure are discarded,
because the merged set is only committed after the whole scan succeeds.
The displayed page and the "all selected" flag are also unchanged. -/
theorem selectRows_midfail_discards (f : Fetcher) (s : AppState) (n : Int)
    (hp : parseIntJS s.inputValue = some n)
    (h0 : ¬ n ≤ 0) (h1 : ¬ (s.totalRecords : Int) < n)
    (herr : selectRowsLoop f n.toNat 0 s.selectedIds = .error ()) :
    (selectRows f s).1.selectedIds = s.selectedIds ∧
    (selectRows f s).1.isAllSelected = s.isAllSelected ∧
    (selectRows f s).1.artworks = s.artworks ∧
    (selectRows f s).2 =
      [{ severity := .error, summary := "Error", detail := "Selection failed" }] := by
  simp only [selectRows, hp, if_neg h0, if_neg h1, herr]
  simp

/-- Witness for the amended C2: bulk-selecting 51 of 60 records where page
1 fails leaves the (empty) selection set and the rest of the state
untouched, with only the error toast emitted. -/
theorem selectRows_midfail_discards_witness :
    (parseIntJS state51.inputValue = some 51 ∧ ¬ (51 : Int) ≤ 0 ∧
      ¬ (state51.totalRecords : Int) < 51) ∧
    (selectRows fetchFailAfterFirst state51).1.selectedIds = state51.selectedIds ∧
    (selectRows fetchFailAfterFirst state51).1.isAllSelected = state51.isAllSelected ∧
    (selectRows fetchFailAfterFirst state51).1.artworks = state51.artworks ∧
    (selectRows fetchFailAfterFirst state51).2 =
      [{ severity := .error, summary := "Error", detail := "Selection failed" }] :=
  ⟨⟨by decide, by decide, by decide⟩,
    selectRows_midfail_discards fetchFailAfterFirst state51 51 (by decide) (by decide)
      (by decide) selectRowsLoop_fail_mid⟩

/-- C2 counterexample: in the same scenario the claim as stated predicts a
partially updated selection set containing the 50 identifiers merged from
page 0 (in particular identifier 1), but after the failure the selection
set is empty. -/
theorem selectRows_midfail_counterexample :
    (selectRows fetchFailAfterFirst state51).1.selectedIds = ∅ ∧
    ¬ ((1 : Int) ∈ (selectRows fetchFailAfterFirst state51).1.selectedIds) := by
  have hp : parseIntJS state51.inputValue = some 51 := by decide
  have h0 : ¬ (51 : Int) ≤ 0 := by norm_num
  have h1 : ¬ (state51.totalRecords : Int) < 51 := by decide
  simp only [selectRows, hp, if_neg h0, if_neg h1, selectRowsLoop_fail_mid]
  exact ⟨rfl, by decide⟩

/-- C3 (amended): in every reachable state whose displayed page is
nonempty, the "all selected" flag is true iff every identifier on the
currently displayed page is a member of the selection set.  (On an empty
page the flag and the vacuous subset condition can disagree.) -/
theorem reachable_allSelected_iff (s : AppState) (h : Reachable s)
    (hne : s.artworks ≠ []) :
    s.isAllSelected = true ↔ ∀ i ∈ s.artworks.map (·.id), i ∈ s.selectedIds := by
  revert hne
  induction h with
  | init =>
      intro hne
      simp [initialState] at hne
  | load s f page rows hs ih =>
      intro hne
      cases hf : f page rows with
      | ok d =>
          simp only [loadPage, hf] at hne ⊢
          have hlen : 0 < d.data.length := List.length_pos.mpr hne
          simp [updateSelectAllStatus, List.all_eq_true, hlen]
      | error e =>
          simp only [loadPage, hf] at hne ⊢
          exact ih hne
  | checkbox s rid checked hs hmem ih =>
      intro hne
      simp only [handleCheckbox] at hne ⊢
      simp [List.all_eq_true]
  | selectAll s checked hs ih =>
      intro hne
      simp only [handleSelectAll] at hne ⊢
      cases checked with
      | false =>
          simp only [Bool.false_eq_true, false_iff, if_false]
          rw [foldl_erase_finset]
          intro hall
          obtain ⟨a, ha⟩ : ∃ a, a ∈ s.artworks.map (·.id) := by
            have : s.artworks.map (·.id) ≠ [] := by simpa using hne
            exact List.exists_mem_of_ne_nil _ this
          have hin := hall a ha
          rw [Finset.mem_sdiff] at hin
          exact hin.2 (List.mem_toFinset.mpr ha)
      | true =>
          simp only [if_true, true_iff]
          rw [foldl_insert_finset]
          intro i hi
          exact Finset.mem_union_right _ (List.mem_toFinset.mpr hi)
  | bulk s f hs ih =>
      intro hne
      cases hp : parseIntJS s.inputValue with
      | none =>
          simp only [selectRows, hp] at hne ⊢
          exact ih hne
      | some n =>
          by_cases h0 : n ≤ 0
          · simp only [selectRows, hp, if_pos h0] at hne ⊢
            exact ih hne
          · by_cases h1 : (s.totalRecords : Int) < n
            · simp only [selectRows, hp, if_neg h0, if_pos h1] at hne ⊢
              exact ih hne
            · cases hloop : selectRowsLoop f n.toNat 0 s.selectedIds with
              | ok res =>
                  simp only [selectRows, hp, if_neg h0, if_neg h1, hloop] at hne ⊢
                  simp [List.all_eq_true]
              | error e =>
                  simp only [selectRows, hp, if_neg h0, if_neg h1, hloop] at hne ⊢
                  exact ih hne
  | submit s hs ih =>
      intro hne
      by_cases hc : s.selectedIds.card = 0
      · simp only [submitSelection, if_pos hc] at hne ⊢
        exact ih hne
      · simp only [submitSelection, if_neg hc] at hne ⊢
        exact ih hne
  | input s v hs ih =>
      intro hne
      exact ih hne
  | dropdown s hs ih =>
      intro hne
      exact ih hne

/-- Witness for the amended C3 at a concrete reachable state: after
loading page 0 of a three-record dataset the page is nonempty and the
flag matches the subset condition. -/
theorem reachable_allSelected_iff_witness :
    (loadPage (apiFetch (mkArts 3)) initialState 0 10).1.artworks ≠ [] ∧
    ((loadPage (apiFetch (mkArts 3)) initialState 0 10).1.isAllSelected = true ↔
      ∀ i ∈ ((loadPage (apiFetch (mkArts 3)) initialState 0 10).1.artworks.map (·.id)),
        i ∈ (loadPage (apiFetch (mkArts 3)) initialState 0 10).1.selectedIds) :=
  ⟨by decide,
    reachable_allSelected_iff _
      (Reachable.load initialState (apiFetch (mkArts 3)) 0 10 Reachable.init) (by decide)⟩

/-- C3 counterexample: the state reached by loading page 0 of an empty
dataset is reachable, its displayed page is empty so the subset condition
holds vacuously, yet the "all selected" flag is false (the recomputation
guards on a nonempty page) — the claimed iff fails there. -/
theorem allSelected_iff_counterexample :
    Reachable (loadPage (apiFetch []) initialState 0 10).1 ∧
    ¬ ((loadPage (apiFetch []) initialState 0 10).1.isAllSelected = true ↔
        ∀ i ∈ ((loadPage (apiFetch []) initialState 0 10).1.artworks.map (·.id)),
          i ∈ (loadPage (apiFetch []) initialState 0 10).1.selectedIds) :=
  ⟨Reachable.load initialState (apiFetch []) 0 10 Reachable.init, by decide⟩
